import Mathlib

/-!
Verification of the screenshot capture session tracker
(`capture_screenshots.js` / `puppeteer_capture.js`).

The JavaScript `ScreenshotManager` mutates a JSON metadata record in place;
here the metadata is an explicit `Session` value and every mutating method
becomes a function from the old session (plus the current clock reading,
passed explicitly as a string) to the new session.  Methods that can throw
(`markCaptured`, `markFailed`, `markSkipped`) return a pair of an optional
error message (the thrown message, `none` on success) and the session as the
caller observes it afterwards; the JavaScript throws before any mutation, so
on the error path the returned session is the input unchanged.
-/

namespace ScreenshotManager

/-- Per-task status: the four values a task's `status` field can take
(`'pending'`, `'captured'`, `'failed'`, `'skipped'`); an absent field is
modelled by `Option.none` at the use sites. -/
inductive TaskStatus where
  | pending
  | captured
  | failed
  | skipped
deriving DecidableEq

/-- One entry of `metadata.screenshots.list`. -/
structure Task where
  id : String
  page : String
  description : String
  auth_required : Bool
  status : Option TaskStatus
  file_path : Option String
  error : Option String
  captured_at : Option String
deriving DecidableEq

/-- The summary record embedded by `finishCapture`. -/
structure Summary where
  total : Nat
  captured : Nat
  failed : Nat
  skipped : Nat
deriving DecidableEq

/-- Session-level status (`metadata.screenshots.status`).  The value the
code writes for a partial run (`'partial'`) is named `partialS` here. -/
inductive SessionStatus where
  | placeholder
  | capturing
  | captured
  | partialS
  | failed
deriving DecidableEq

/-- The manager state: the metadata record plus the manager's configuration
(`metadataPath`, `outputDir`). -/
structure Session where
  metadataPath : String
  output_dir : String
  list : List Task
  status : Option SessionStatus
  capture_started_at : Option String
  captured_at : Option String
  summary : Option Summary
  updated_at : Option String
deriving DecidableEq

/-- `save()`: stamps `metadata.updated_at` with the current time and writes
the file; the write itself is external, the state change is this. -/
def save (s : Session) (now : String) : Session :=
  { s with updated_at := some now }

/-- `list.find(s => s.id === screenshotId)`: first task with the given id. -/
def findTask (l : List Task) (id : String) : Option Task :=
  l.find? (fun t => decide (t.id = id))

/-- In-place mutation of the object returned by `find`: the list with the
first task whose id matches replaced by `f` of it. -/
def updateFirst (l : List Task) (id : String) (f : Task → Task) : List Task :=
  match l with
  | [] => []
  | t :: ts => if t.id = id then f t :: ts else t :: updateFirst ts id f

/-- The derived default artifact path `${this.outputDir}/${screenshotId}.png`. -/
def defaultPath (outputDir id : String) : String :=
  outputDir ++ "/" ++ id ++ ".png"

/-- `filePath || dflt` on an optional string: JavaScript `||` also treats the
empty string as falsy. -/
def orPath (filePath : Option String) (dflt : String) : String :=
  match filePath with
  | some fp => if fp = "" then dflt else fp
  | none => dflt

/-- The field updates `markCaptured` performs on the found task. -/
def captureUpdate (outputDir id : String) (filePath : Option String) (now : String)
    (t : Task) : Task :=
  { t with
    status := some .captured
    captured_at := some now
    file_path := some (orPath filePath (defaultPath outputDir id))
    error := none }

/-- `markCaptured(screenshotId, filePath = null)`. -/
def markCaptured (s : Session) (id : String) (filePath : Option String) (now : String) :
    Option String × Session :=
  match findTask s.list id with
  | none => (some ("Screenshot not found: " ++ id), s)
  | some _ =>
    (none,
      save { s with list := updateFirst s.list id (captureUpdate s.output_dir id filePath now) }
        now)

/-- The field updates `markFailed` performs on the found task. -/
def failUpdate (msg : String) (t : Task) : Task :=
  { t with status := some .failed, error := some msg }

/-- `markFailed(screenshotId, errorMessage)`. -/
def markFailed (s : Session) (id msg now : String) : Option String × Session :=
  match findTask s.list id with
  | none => (some ("Screenshot not found: " ++ id), s)
  | some _ => (none, save { s with list := updateFirst s.list id (failUpdate msg) } now)

/-- The field updates `markSkipped` performs on the found task. -/
def skipUpdate (reason : String) (t : Task) : Task :=
  { t with status := some .skipped, error := some reason }

/-- `markSkipped(screenshotId, reason)`. -/
def markSkipped (s : Session) (id reason now : String) : Option String × Session :=
  match findTask s.list id with
  | none => (some ("Screenshot not found: " ++ id), s)
  | some _ => (none, save { s with list := updateFirst s.list id (skipUpdate reason) } now)

/-- Number of tasks in `l` whose `status` field equals `st`
(`list.filter(s => s.status === '...').length`). -/
def statusCount (l : List Task) (st : TaskStatus) : Nat :=
  (l.filter (fun t => decide (t.status = some st))).length

/-- The rollup branch of `finishCapture`:
`captured === total ? 'captured' : captured > 0 ? 'partial' : 'failed'`. -/
def rollup (captured total : Nat) : SessionStatus :=
  if captured = total then .captured
  else if 0 < captured then .partialS
  else .failed

/-- `finishCapture()`: derives the session status from the task counts and
embeds the summary record, then saves. -/
def finishCapture (s : Session) (now : String) : Session :=
  save
    { s with
      status := some (rollup (statusCount s.list .captured) s.list.length)
      captured_at := some now
      summary := some
        { total := s.list.length
          captured := statusCount s.list .captured
          failed := statusCount s.list .failed
          skipped := statusCount s.list .skipped } }
    now

/-- `!s.status || s.status === 'pending'`: the pending filter of
`getProgress` and `getPendingScreenshots`. -/
def isPendingB (t : Task) : Bool :=
  decide (t.status = none) || decide (t.status = some TaskStatus.pending)

/-- The record returned by `getProgress()`. -/
structure Progress where
  total : Nat
  captured : Nat
  failed : Nat
  skipped : Nat
  pending : Nat
deriving DecidableEq

/-- `getProgress()`: pure scan over the task list. -/
def getProgress (s : Session) : Progress :=
  { total := s.list.length
    captured := statusCount s.list .captured
    failed := statusCount s.list .failed
    skipped := statusCount s.list .skipped
    pending := (s.list.filter isPendingB).length }

/-- `screenshot.status || 'pending'` in `generateReport`. -/
def effStatus (t : Task) : TaskStatus :=
  t.status.getD .pending

/-- The status-icon lookup table of `generateReport`. -/
def statusIcon : TaskStatus → String
  | .captured => "[OK]"
  | .failed => "[FAIL]"
  | .skipped => "[SKIP]"
  | .pending => "[...]"

/-- The textual form of a task status as rendered in the report. -/
def statusName : TaskStatus → String
  | .captured => "captured"
  | .failed => "failed"
  | .skipped => "skipped"
  | .pending => "pending"

/-- `if (v) lines.push(label + v)`: the line is emitted only when the field
is present and truthy (a present empty string is falsy in JavaScript). -/
def optLine (label : String) (v : Option String) : List String :=
  match v with
  | some x => if x = "" then [] else [label ++ x]
  | none => []

/-- The per-task block of the report. -/
def taskBlock (t : Task) : List String :=
  ["### " ++ statusIcon (effStatus t) ++ " " ++ t.id,
   "- Description: " ++ t.description,
   "- Page: " ++ t.page,
   "- Status: " ++ statusName (effStatus t)]
  ++ optLine "- File: " t.file_path
  ++ optLine "- Error: " t.error
  ++ [""]

/-- The `lines` array of `generateReport()`; `now` is what
`new Date().toISOString()` returns at the moment of the call. -/
def reportLines (s : Session) (now : String) : List String :=
  ["# Screenshot Capture Report",
   "",
   "Generated: " ++ now,
   "Metadata: " ++ s.metadataPath,
   "",
   "## Summary",
   "",
   "- Total: " ++ toString (getProgress s).total,
   "- Captured: " ++ toString (getProgress s).captured,
   "- Failed: " ++ toString (getProgress s).failed,
   "- Skipped: " ++ toString (getProgress s).skipped,
   "- Pending: " ++ toString (getProgress s).pending,
   "",
   "## Details",
   ""]
  ++ (s.list.map taskBlock).flatten

/-- `generateReport()`: `lines.join('\n')`. -/
def generateReport (s : Session) (now : String) : String :=
  String.intercalate "\n" (reportLines s now)

/-- One entry of `this.results` in `puppeteer_capture.js` (only its status
matters for the rollup). -/
inductive ResultStatus where
  | captured
  | failed
  | skipped
deriving DecidableEq

/-- `this.results.filter(r => r.status === 'captured').length`. -/
def capturedCount (rs : List ResultStatus) : Nat :=
  (rs.filter (fun r => decide (r = ResultStatus.captured))).length

/-- The session-finalize rollup applied to a batch of per-task results:
`capture()` pushes exactly one result per screenshot, so the batch total is
`rs.length`. This is the `finishCapture` branch, via `rollup`. -/
def finishRollupOf (rs : List ResultStatus) : SessionStatus :=
  rollup (capturedCount rs) rs.length

/-- The ad hoc rollup of `updateMetadata` in `puppeteer_capture.js`:
`captured === SCREENSHOTS.length ? 'captured' : 'partial'` (one result per
screenshot, so `SCREENSHOTS.length = rs.length`). -/
def updateRollupOf (rs : List ResultStatus) : SessionStatus :=
  if capturedCount rs = rs.length then .captured else .partialS

/-- One mark-* call, with its clock reading. -/
inductive Op where
  | capture (id : String) (filePath : Option String) (now : String)
  | fail (id : String) (msg : String) (now : String)
  | skip (id : String) (reason : String) (now : String)

/-- The session as observed after one mark-* call (on a throw the caller
observes the unchanged session). -/
def applyOp (s : Session) (op : Op) : Session :=
  match op with
  | .capture id fp now => (markCaptured s id fp now).2
  | .fail id msg now => (markFailed s id msg now).2
  | .skip id reason now => (markSkipped s id reason now).2

/-- A sequence of mark-* calls. -/
def runOps (s : Session) (ops : List Op) : Session :=
  ops.foldl applyOp s

/-- A task as constructed from a fresh definition list: no status, no
artifact path, no error, no timestamp. -/
def freshTask (id page description : String) (auth : Bool) : Task :=
  { id := id
    page := page
    description := description
    auth_required := auth
    status := none
    file_path := none
    error := none
    captured_at := none }

/-- A session with an empty task list. -/
def emptySession : Session :=
  { metadataPath := ".manual-meta.json"
    output_dir := "screenshots"
    list := []
    status := some .capturing
    capture_started_at := some "2024-01-01T00:00:00.000Z"
    captured_at := none
    summary := none
    updated_at := none }

/-- A freshly loaded session with a single task of id `"a"`. -/
def oneTaskSession : Session :=
  { metadataPath := ".manual-meta.json"
    output_dir := "screenshots"
    list := [freshTask "a" "https://example.com/" "Home" false]
    status := none
    capture_started_at := none
    captured_at := none
    summary := none
    updated_at := none }

/-! ### Helper lemmas about `updateFirst` and the counts -/

theorem length_eq_statusCounts (l : List Task) :
    l.length =
      statusCount l .captured + statusCount l .failed + statusCount l .skipped +
        (l.filter isPendingB).length := by
  induction l with
  | nil => rfl
  | cons t ts ih =>
    obtain ⟨tid, tpage, tdesc, tauth, tstatus, tfp, terr, tcap⟩ := t
    simp only [List.length_cons, statusCount, List.filter_cons, isPendingB] at *
    rcases tstatus with _ | st
    · simp; omega
    · cases st <;> simp <;> omega

theorem updateFirst_map_eq {α : Type} (l : List Task) (id : String) (f : Task → Task)
    (g : Task → α) (hf : ∀ t, g (f t) = g t) :
    (updateFirst l id f).map g = l.map g := by
  induction l with
  | nil => rfl
  | cons t ts ih =>
    by_cases h : t.id = id <;> simp [updateFirst, h, hf, ih]

theorem updateFirst_find? (l : List Task) (id : String) (f : Task → Task) (t0 : Task)
    (hid : ∀ t, (f t).id = t.id)
    (h : l.find? (fun t => decide (t.id = id)) = some t0) :
    (updateFirst l id f).find? (fun t => decide (t.id = id)) = some (f t0) := by
  induction l with
  | nil => simp at h
  | cons t ts ih =>
    by_cases ht : t.id = id
    · rw [List.find?_cons_of_pos _ (by simp [ht])] at h
      rw [updateFirst, if_pos ht, List.find?_cons_of_pos _ (by simp [hid, ht])]
      simp_all
    · rw [List.find?_cons_of_neg _ (by simp [ht])] at h
      rw [updateFirst, if_neg ht, List.find?_cons_of_neg _ (by simp [ht])]
      exact ih h

theorem updateFirst_idem (l : List Task) (id : String) (f : Task → Task)
    (hid : ∀ t, (f t).id = t.id) (hff : ∀ t, f (f t) = f t) :
    updateFirst (updateFirst l id f) id f = updateFirst l id f := by
  induction l with
  | nil => rfl
  | cons t ts ih =>
    by_cases h : t.id = id
    · rw [updateFirst, if_pos h, updateFirst, if_pos (by rw [hid, h]), hff]
    · rw [updateFirst, if_neg h, updateFirst, if_neg h, ih]

theorem updateFirst_forall (P : Task → Prop) (l : List Task) (id : String) (f : Task → Task)
    (hl : ∀ t ∈ l, P t) (hf : ∀ t, P (f t)) : ∀ t ∈ updateFirst l id f, P t := by
  induction l with
  | nil => simp [updateFirst]
  | cons a ts ih =>
    by_cases h : a.id = id
    · rw [updateFirst, if_pos h]
      intro t ht
      rcases List.mem_cons.mp ht with h1 | h1
      · exact h1 ▸ hf a
      · exact hl t (List.mem_cons_of_mem _ h1)
    · rw [updateFirst, if_neg h]
      intro t ht
      rcases List.mem_cons.mp ht with h1 | h1
      · exact h1 ▸ hl a (List.mem_cons_self _ _)
      · exact ih (fun t ht => hl t (List.mem_cons_of_mem _ ht)) t h1

theorem updateFirst_getElem_ne (l : List Task) (id : String) (f : Task → Task) :
    ∀ (j : Nat) (t : Task), l[j]? = some t → t.id ≠ id →
      (updateFirst l id f)[j]? = some t := by
  induction l with
  | nil => intro j t ht; simp at ht
  | cons a ts ih =>
    intro j t ht hne
    by_cases h : a.id = id
    · cases j with
      | zero =>
        simp only [List.getElem?_cons_zero, Option.some.injEq] at ht
        exact absurd (ht ▸ h) hne
      | succ j =>
        rw [updateFirst, if_pos h, List.getElem?_cons_succ]
        simpa using ht
    · cases j with
      | zero =>
        rw [updateFirst, if_neg h, List.getElem?_cons_zero]
        simpa using ht
      | succ j =>
        rw [updateFirst, if_neg h, List.getElem?_cons_succ]
        exact ih j t (by simpa using ht) hne

theorem save_of_updated (s : Session) (now : String) (h : s.updated_at = some now) :
    save s now = s := by
  cases s
  simp_all [save]

theorem markCaptured_eq_of_found (s : Session) (id : String) (fp : Option String)
    (now : String) (t0 : Task) (h : findTask s.list id = some t0) :
    markCaptured s id fp now =
      (none,
        save { s with list := updateFirst s.list id (captureUpdate s.output_dir id fp now) }
          now) := by
  simp only [markCaptured, h]

theorem markFailed_eq_of_found (s : Session) (id msg now : String) (t0 : Task)
    (h : findTask s.list id = some t0) :
    markFailed s id msg now =
      (none, save { s with list := updateFirst s.list id (failUpdate msg) } now) := by
  simp only [markFailed, h]

theorem markSkipped_eq_of_found (s : Session) (id reason now : String) (t0 : Task)
    (h : findTask s.list id = some t0) :
    markSkipped s id reason now =
      (none, save { s with list := updateFirst s.list id (skipUpdate reason) } now) := by
  simp only [markSkipped, h]

theorem rollup_spec (c n : Nat) :
    (rollup c n = SessionStatus.captured ↔ c = n) ∧
    (rollup c n = SessionStatus.partialS ↔ (0 < c ∧ c ≠ n)) ∧
    (rollup c n = SessionStatus.failed ↔ (c = 0 ∧ n ≠ 0)) := by
  unfold rollup
  split_ifs with h1 h2 <;> refine ⟨?_, ?_, ?_⟩ <;> simp <;> omega

/-! ### Claim theorems -/

/-- C6: for every session state, `getProgress` satisfies
`total = captured + failed + skipped + pending`, where pending counts tasks
with an absent status as well as explicit `'pending'`. -/
theorem C6_progress_total (s : Session) :
    (getProgress s).total =
      (getProgress s).captured + (getProgress s).failed + (getProgress s).skipped +
        (getProgress s).pending := by
  simpa [getProgress] using length_eq_statusCounts s.list

/-- C9: on a session with an empty task list, `finishCapture` takes the
`captured === total` branch (both are 0) and records the all-zero summary. -/
theorem C9_empty_finish (s : Session) (now : String) (h : s.list = []) :
    (finishCapture s now).status = some SessionStatus.captured ∧
    (finishCapture s now).summary =
      some { total := 0, captured := 0, failed := 0, skipped := 0 } := by
  simp [finishCapture, save, rollup, statusCount, h]

/-- C9 witness: the theorem applied to the concrete empty session. -/
theorem C9_empty_finish_witness :
    (finishCapture emptySession "2024-01-01T00:00:10.000Z").status =
        some SessionStatus.captured ∧
    (finishCapture emptySession "2024-01-01T00:00:10.000Z").summary =
      some { total := 0, captured := 0, failed := 0, skipped := 0 } :=
  C9_empty_finish emptySession "2024-01-01T00:00:10.000Z" rfl

/-- C1 counterexample: on the empty session the captured count is 0 yet
`finishCapture` sets the status to `captured`, not `failed`, so the claimed
biconditional "status = Failed iff captured = 0" is false there. -/
theorem C1_counterexample :
    ¬ (((finishCapture emptySession "2024-01-01T00:00:10.000Z").status =
          some SessionStatus.failed) ↔
        statusCount emptySession.list TaskStatus.captured = 0) := by
  decide

/-- C1 (amended): after `finishCapture` the status is `captured` iff
`captured = total`; `partialS` iff `0 < captured` and `captured ≠ total`;
`failed` iff `captured = 0` and the task list is nonempty (the empty session
falls in the `captured` branch); and the embedded summary records exactly the
four counts. -/
theorem C1_finish_rollup (s : Session) (now : String) :
    ((finishCapture s now).status = some SessionStatus.captured ↔
        statusCount s.list TaskStatus.captured = s.list.length) ∧
    ((finishCapture s now).status = some SessionStatus.partialS ↔
        (0 < statusCount s.list TaskStatus.captured ∧
          statusCount s.list TaskStatus.captured ≠ s.list.length)) ∧
    ((finishCapture s now).status = some SessionStatus.failed ↔
        (statusCount s.list TaskStatus.captured = 0 ∧ s.list.length ≠ 0)) ∧
    (finishCapture s now).summary =
      some
        { total := s.list.length
          captured := statusCount s.list TaskStatus.captured
          failed := statusCount s.list TaskStatus.failed
          skipped := statusCount s.list TaskStatus.skipped } := by
  have hst : (finishCapture s now).status =
      some (rollup (statusCount s.list TaskStatus.captured) s.list.length) := rfl
  refine ⟨?_, ?_, ?_, rfl⟩ <;> rw [hst, Option.some.injEq]
  · exact (rollup_spec _ _).1
  · exact (rollup_spec _ _).2.1
  · exact (rollup_spec _ _).2.2

/-- C4: every mark-* operation on an id absent from the task list throws
`Screenshot not found: <id>` and leaves the session exactly as it was, and on
a present id none of them throws. -/
theorem C4_unknown_id (s : Session) (id : String) (fp : Option String)
    (msg reason now : String) :
    (findTask s.list id = none →
      markCaptured s id fp now = (some ("Screenshot not found: " ++ id), s) ∧
      markFailed s id msg now = (some ("Screenshot not found: " ++ id), s) ∧
      markSkipped s id reason now = (some ("Screenshot not found: " ++ id), s)) ∧
    (findTask s.list id ≠ none →
      (markCaptured s id fp now).1 = none ∧
      (markFailed s id msg now).1 = none ∧
      (markSkipped s id reason now).1 = none) := by
  cases h : findTask s.list id <;>
    simp [markCaptured, markFailed, markSkipped, h]

/-- C4 witness: on the one-task session, `markFailed` with the unknown id
`"nope"` errors and returns the session unchanged, while `markFailed` on the
present id `"a"` raises no error. -/
theorem C4_unknown_id_witness :
    markFailed oneTaskSession "nope" "m" "T" =
        (some ("Screenshot not found: " ++ "nope"), oneTaskSession) ∧
    (markFailed oneTaskSession "a" "m" "T").1 = none :=
  ⟨((C4_unknown_id oneTaskSession "nope" none "m" "r" "T").1 (by decide)).2.1,
   ((C4_unknown_id oneTaskSession "a" none "m" "r" "T").2 (by decide)).2.1⟩

/-- The per-task invariant exactly as the specification states it:
`artifactPath` present iff `status = Captured`, `errorMessage` present iff
`status ∈ {Failed, Skipped}` (the enum-membership part of the invariant is
carried by the `TaskStatus` type itself). -/
def claimedTaskInv (t : Task) : Prop :=
  (t.file_path.isSome ↔ t.status = some TaskStatus.captured) ∧
  (t.error.isSome ↔ (t.status = some TaskStatus.failed ∨ t.status = some TaskStatus.skipped))

instance (t : Task) : Decidable (claimedTaskInv t) := by
  unfold claimedTaskInv; infer_instance

/-- The weakened per-task invariant that the code actually maintains:
`markFailed`/`markSkipped` never delete `file_path`, so only the forward
direction holds for the artifact path. -/
def taskInvariantA (t : Task) : Prop :=
  (t.status = some TaskStatus.captured → t.file_path.isSome) ∧
  (t.error.isSome ↔ (t.status = some TaskStatus.failed ∨ t.status = some TaskStatus.skipped))

instance (t : Task) : Decidable (taskInvariantA t) := by
  unfold taskInvariantA; infer_instance

/-- The weakened invariant over every task of a session. -/
def sessionInvariantA (s : Session) : Prop :=
  ∀ t ∈ s.list, taskInvariantA t

instance (s : Session) : Decidable (sessionInvariantA s) := by
  unfold sessionInvariantA; infer_instance

theorem captureUpdate_invariant (outputDir id : String) (fp : Option String) (now : String)
    (t : Task) : taskInvariantA (captureUpdate outputDir id fp now t) := by
  simp [taskInvariantA, captureUpdate]

theorem failUpdate_invariant (msg : String) (t : Task) :
    taskInvariantA (failUpdate msg t) := by
  simp [taskInvariantA, failUpdate]

theorem skipUpdate_invariant (reason : String) (t : Task) :
    taskInvariantA (skipUpdate reason t) := by
  simp [taskInvariantA, skipUpdate]

theorem invariant_mark (s : Session) (id now : String) (f : Task → Task)
    (h : sessionInvariantA s) (hf : ∀ t, taskInvariantA (f t)) :
    sessionInvariantA (save { s with list := updateFirst s.list id f } now) := by
  intro t ht
  exact updateFirst_forall taskInvariantA s.list id f h hf t (by simpa [save] using ht)

theorem markCaptured_invariant (s : Session) (id : String) (fp : Option String) (now : String)
    (h : sessionInvariantA s) : sessionInvariantA (markCaptured s id fp now).2 := by
  cases hf : findTask s.list id with
  | none => simp only [markCaptured, hf]; exact h
  | some t0 =>
    simp only [markCaptured, hf]
    exact invariant_mark s id now _ h (captureUpdate_invariant s.output_dir id fp now)

theorem markFailed_invariant (s : Session) (id msg now : String)
    (h : sessionInvariantA s) : sessionInvariantA (markFailed s id msg now).2 := by
  cases hf : findTask s.list id with
  | none => simp only [markFailed, hf]; exact h
  | some t0 =>
    simp only [markFailed, hf]
    exact invariant_mark s id now _ h (failUpdate_invariant msg)

theorem markSkipped_invariant (s : Session) (id reason now : String)
    (h : sessionInvariantA s) : sessionInvariantA (markSkipped s id reason now).2 := by
  cases hf : findTask s.list id with
  | none => simp only [markSkipped, hf]; exact h
  | some t0 =>
    simp only [markSkipped, hf]
    exact invariant_mark s id now _ h (skipUpdate_invariant reason)

theorem applyOp_invariant (s : Session) (op : Op) (h : sessionInvariantA s) :
    sessionInvariantA (applyOp s op) := by
  cases op with
  | capture id fp now => exact markCaptured_invariant s id fp now h
  | fail id msg now => exact markFailed_invariant s id msg now h
  | skip id reason now => exact markSkipped_invariant s id reason now h

/-- C2 counterexample: capture task `"a"` and then fail it; `markFailed` does
not delete `file_path`, so the resulting task has an artifact path while its
status is `failed`, violating the claimed "artifactPath present iff status =
Captured". -/
theorem C2_counterexample :
    ¬ ∀ t ∈ (runOps oneTaskSession
        [Op.capture "a" none "2024-01-01T00:00:01.000Z",
         Op.fail "a" "timeout" "2024-01-01T00:00:02.000Z"]).list, claimedTaskInv t := by
  decide

/-- C2 (amended): along any sequence of `markCaptured`/`markFailed`/
`markSkipped` calls from a state satisfying it (in particular from a freshly
loaded session, whose tasks have no artifact path and no error), every task
keeps a status among the four enum values, has an artifact path whenever its
status is `captured` (the path may also persist after a later failure), and
has an error message exactly when its status is `failed` or `skipped`. -/
theorem C2_invariant_preserved (s : Session) (ops : List Op) (h : sessionInvariantA s) :
    sessionInvariantA (runOps s ops) := by
  induction ops generalizing s with
  | nil => exact h
  | cons op rest ih => exact ih (applyOp s op) (applyOp_invariant s op h)

/-- C2 witness: the weakened invariant holds concretely after the
capture-then-fail sequence on the fresh one-task session. -/
theorem C2_invariant_preserved_witness :
    sessionInvariantA (runOps oneTaskSession
      [Op.capture "a" none "2024-01-01T00:00:01.000Z",
       Op.fail "a" "timeout" "2024-01-01T00:00:02.000Z"]) :=
  C2_invariant_preserved oneTaskSession
    [Op.capture "a" none "2024-01-01T00:00:01.000Z",
     Op.fail "a" "timeout" "2024-01-01T00:00:02.000Z"] (by decide)

/-- C3 counterexample: `markFailed` on the fresh task `"a"` leaves the task's
timestamp (`captured_at`) absent instead of setting it to the current time,
refuting "markFailed sets timestamp = now". -/
theorem C3_counterexample :
    (markFailed oneTaskSession "a" "boom" "2024-01-01T00:00:02.000Z").2.list.map
        Task.captured_at ≠ [some "2024-01-01T00:00:02.000Z"] := by
  decide

/-- C3 (amended): only `markCaptured` sets the task timestamp: on a found id
it stores `captured_at = now` on the target task, while `markFailed` and
`markSkipped` leave every task's `captured_at` exactly as it was. -/
theorem C3_timestamps (s : Session) (id : String) (fp : Option String)
    (msg reason now : String) (t0 : Task) (h : findTask s.list id = some t0) :
    ((markCaptured s id fp now).2.list.find? (fun t => decide (t.id = id)) =
        some (captureUpdate s.output_dir id fp now t0)) ∧
    (captureUpdate s.output_dir id fp now t0).captured_at = some now ∧
    (markFailed s id msg now).2.list.map Task.captured_at = s.list.map Task.captured_at ∧
    (markSkipped s id reason now).2.list.map Task.captured_at = s.list.map Task.captured_at := by
  refine ⟨?_, rfl, ?_, ?_⟩
  · have hl : (markCaptured s id fp now).2.list =
        updateFirst s.list id (captureUpdate s.output_dir id fp now) := by
      simp [markCaptured, h, save]
    rw [hl]
    exact updateFirst_find? s.list id _ t0 (fun t => rfl) h
  · have hl : (markFailed s id msg now).2.list = updateFirst s.list id (failUpdate msg) := by
      simp [markFailed, h, save]
    rw [hl]
    exact updateFirst_map_eq _ _ _ _ (fun t => rfl)
  · have hl : (markSkipped s id reason now).2.list =
        updateFirst s.list id (skipUpdate reason) := by
      simp [markSkipped, h, save]
    rw [hl]
    exact updateFirst_map_eq _ _ _ _ (fun t => rfl)

/-- C3 witness: capturing the concrete fresh task stamps its timestamp. -/
theorem C3_timestamps_witness :
    (captureUpdate "screenshots" "a" none "2024-01-01T00:00:01.000Z"
        (freshTask "a" "https://example.com/" "Home" false)).captured_at =
      some "2024-01-01T00:00:01.000Z" :=
  (C3_timestamps oneTaskSession "a" none "m" "r" "2024-01-01T00:00:01.000Z"
      (freshTask "a" "https://example.com/" "Home" false) (by decide)).2.1

/-- C5 counterexample: with the present-but-empty path argument `some ""`,
`markCaptured` stores the derived default path, not the given `""`
(JavaScript `filePath || default` treats the empty string as falsy), refuting
"sets artifactPath to p" for that input. -/
theorem C5_counterexample :
    (markCaptured oneTaskSession "a" (some "") "2024-01-01T00:00:01.000Z").2.list.map
        Task.file_path ≠ [some ""] ∧
    (markCaptured oneTaskSession "a" (some "") "2024-01-01T00:00:01.000Z").2.list.map
        Task.file_path = [some "screenshots/a.png"] := by
  decide

/-- C5 (amended): `markCaptured` is idempotent — repeating the call with the
same arguments and clock reading leaves the session exactly as after one call
— and each call sets the target's status to `captured`, clears its error, and
stores `p` as artifact path unless `p` is absent or empty, in which case the
derived default `{outputDir}/{taskId}.png` is stored (`orPath`). -/
theorem C5_markCaptured_idem (s : Session) (id : String) (fp : Option String) (now : String)
    (t0 : Task) (h : findTask s.list id = some t0) :
    (markCaptured (markCaptured s id fp now).2 id fp now).2 = (markCaptured s id fp now).2 ∧
    (markCaptured s id fp now).2.list.find? (fun t => decide (t.id = id)) =
      some (captureUpdate s.output_dir id fp now t0) ∧
    (captureUpdate s.output_dir id fp now t0).status = some TaskStatus.captured ∧
    (captureUpdate s.output_dir id fp now t0).error = none ∧
    (captureUpdate s.output_dir id fp now t0).file_path =
      some (orPath fp (defaultPath s.output_dir id)) := by
  have hlist : (markCaptured s id fp now).2.list =
      updateFirst s.list id (captureUpdate s.output_dir id fp now) := by
    simp [markCaptured, h, save]
  have hfind2 : findTask (markCaptured s id fp now).2.list id =
      some (captureUpdate s.output_dir id fp now t0) := by
    rw [findTask, hlist]
    exact updateFirst_find? s.list id _ t0 (fun t => rfl) h
  have hout : (markCaptured s id fp now).2.output_dir = s.output_dir := by
    simp [markCaptured, h, save]
  have hupd : (markCaptured s id fp now).2.updated_at = some now := by
    simp [markCaptured, h, save]
  refine ⟨?_, hfind2, rfl, rfl, rfl⟩
  have step : (markCaptured (markCaptured s id fp now).2 id fp now).2 =
      save { (markCaptured s id fp now).2 with
             list := updateFirst (markCaptured s id fp now).2.list id
               (captureUpdate (markCaptured s id fp now).2.output_dir id fp now) } now := by
    rw [markCaptured_eq_of_found (markCaptured s id fp now).2 id fp now
      (captureUpdate s.output_dir id fp now t0) hfind2]
  rw [step, hout, hlist,
    updateFirst_idem s.list id (captureUpdate s.output_dir id fp now)
      (fun t => rfl) (fun t => rfl), ← hlist]
  exact save_of_updated _ now hupd

/-- C5 witness: the double call equals the single call on the concrete
one-task session. -/
theorem C5_markCaptured_idem_witness :
    (markCaptured (markCaptured oneTaskSession "a" (some "shot.png")
          "2024-01-01T00:00:01.000Z").2 "a" (some "shot.png")
        "2024-01-01T00:00:01.000Z").2 =
      (markCaptured oneTaskSession "a" (some "shot.png") "2024-01-01T00:00:01.000Z").2 :=
  (C5_markCaptured_idem oneTaskSession "a" (some "shot.png") "2024-01-01T00:00:01.000Z"
      (freshTask "a" "https://example.com/" "Home" false) (by decide)).1

/-- The fields of a task that `markFailed`/`markSkipped` do not touch. -/
def taskFrame (t : Task) : String × String × String × Bool × Option String × Option String :=
  (t.id, t.page, t.description, t.auth_required, t.file_path, t.captured_at)

/-- The session-level fields that `markFailed`/`markSkipped` do not touch
(everything except the task list and `updated_at`). -/
def sessionFrame (s : Session) :
    String × String × Option SessionStatus × Option String × Option String × Option Summary :=
  (s.metadataPath, s.output_dir, s.status, s.capture_started_at, s.captured_at, s.summary)

/-- C7 counterexample: `generateReport` reads the clock for its
`Generated:` line, so two invocations on the identical session state at
different instants return different strings, refuting "two invocations on
the same state return the identical report string". -/
theorem C7_counterexample :
    generateReport oneTaskSession "2024-01-01T00:00:01.000Z" ≠
      generateReport oneTaskSession "2024-01-02T00:00:01.000Z" := by
  decide

/-- C7 (amended): the only non-session input of `generateReport` is the
clock reading used for line 3 (`Generated: <now>`); every other line of the
report is a pure function of the session state (and the report performs no
store reads or writes — it is `lines.join`). -/
theorem C7_report_clock (s : Session) (t1 t2 : String) :
    (reportLines s t1).take 2 = (reportLines s t2).take 2 ∧
    (reportLines s t1)[2]? = some ("Generated: " ++ t1) ∧
    (reportLines s t1).drop 3 = (reportLines s t2).drop 3 ∧
    generateReport s t1 = String.intercalate "\n" (reportLines s t1) :=
  ⟨rfl, rfl, rfl, rfl⟩

/-- C8 counterexample: on a batch whose single result failed, the finalize
rollup yields `failed` while `updateMetadata`'s rollup yields `partial`: the
two places disagree. -/
theorem C8_counterexample :
    finishRollupOf [ResultStatus.failed] = SessionStatus.failed ∧
    updateRollupOf [ResultStatus.failed] = SessionStatus.partialS ∧
    SessionStatus.failed ≠ SessionStatus.partialS := by
  decide

/-- C8 (amended): the session-finalize rollup (the `rollup` branch of
`finishCapture`) and the ad hoc `updateMetadata` rollup agree exactly on the
batches with at least one captured result or no results at all;
`updateMetadata` never produces `failed`, so on a nonempty batch with zero
captures the finalize rollup says `failed` while `updateMetadata` says
`partial`. -/
theorem C8_rollup_agreement :
    (∀ (s : Session) (now : String),
      (finishCapture s now).status =
        some (rollup (statusCount s.list TaskStatus.captured) s.list.length)) ∧
    (∀ rs : List ResultStatus,
      (finishRollupOf rs = updateRollupOf rs ↔ (0 < capturedCount rs ∨ rs = []))) := by
  refine ⟨fun s now => rfl, fun rs => ?_⟩
  unfold finishRollupOf updateRollupOf rollup
  split_ifs with h1 h2
  · refine iff_of_true rfl ?_
    rcases Nat.eq_zero_or_pos (capturedCount rs) with h0 | h0
    · right
      have hn : rs.length = 0 := by omega
      exact List.length_eq_zero.mp hn
    · exact Or.inl h0
  · exact iff_of_true rfl (Or.inl h2)
  · refine iff_of_false (by simp) ?_
    rintro (h0 | h0)
    · omega
    · subst h0
      simp [capturedCount] at h1

/-- C10: on a present id, `markFailed` and `markSkipped` change only the
target task's `status` and `error` (every task — the target included — keeps
its `id`, `page`, `description`, `auth_required`, `file_path` and
`captured_at`), tasks with a different id are entirely unchanged at their
positions, and at session level only `updated_at` changes (to the save
timestamp). -/
theorem C10_mark_frame (s : Session) (id msg reason now : String) (t0 : Task)
    (h : findTask s.list id = some t0) :
    ((markFailed s id msg now).2.list.map taskFrame = s.list.map taskFrame ∧
      (markSkipped s id reason now).2.list.map taskFrame = s.list.map taskFrame) ∧
    (∀ (j : Nat) (t : Task), s.list[j]? = some t → t.id ≠ id →
      (markFailed s id msg now).2.list[j]? = some t ∧
      (markSkipped s id reason now).2.list[j]? = some t) ∧
    (sessionFrame (markFailed s id msg now).2 = sessionFrame s ∧
      sessionFrame (markSkipped s id reason now).2 = sessionFrame s) ∧
    ((markFailed s id msg now).2.updated_at = some now ∧
      (markSkipped s id reason now).2.updated_at = some now) := by
  have hff : (markFailed s id msg now).2 =
      save { s with list := updateFirst s.list id (failUpdate msg) } now := by
    rw [markFailed_eq_of_found s id msg now t0 h]
  have hsk : (markSkipped s id reason now).2 =
      save { s with list := updateFirst s.list id (skipUpdate reason) } now := by
    rw [markSkipped_eq_of_found s id reason now t0 h]
  have hfl : (markFailed s id msg now).2.list = updateFirst s.list id (failUpdate msg) := by
    rw [hff]; rfl
  have hsl : (markSkipped s id reason now).2.list =
      updateFirst s.list id (skipUpdate reason) := by
    rw [hsk]; rfl
  refine ⟨⟨?_, ?_⟩, ?_, ⟨?_, ?_⟩, ?_, ?_⟩
  · rw [hfl]
    exact updateFirst_map_eq s.list id (failUpdate msg) taskFrame (fun t => rfl)
  · rw [hsl]
    exact updateFirst_map_eq s.list id (skipUpdate reason) taskFrame (fun t => rfl)
  · intro j t hjt hne
    constructor
    · rw [hfl]
      exact updateFirst_getElem_ne s.list id (failUpdate msg) j t hjt hne
    · rw [hsl]
      exact updateFirst_getElem_ne s.list id (skipUpdate reason) j t hjt hne
  · rw [hff]; rfl
  · rw [hsk]; rfl
  · rw [hff]; rfl
  · rw [hsk]; rfl

/-- C10 witness: `markFailed` on the concrete one-task session keeps every
untouched task field. -/
theorem C10_mark_frame_witness :
    (markFailed oneTaskSession "a" "boom" "2024-01-01T00:00:02.000Z").2.list.map taskFrame =
      oneTaskSession.list.map taskFrame :=
  ((C10_mark_frame oneTaskSession "a" "boom" "unused" "2024-01-01T00:00:02.000Z"
      (freshTask "a" "https://example.com/" "Home" false) (by decide)).1).1

end ScreenshotManager
